import Mathlib

/-!
Verification development for the storyteller pipeline
(`src/app.py` function `generate_video`, and the CLI variant `src/main.py`).

The Python code is shallowly embedded: every external effect (the language
model call, `json.loads`, the image service, the HTTP fetch, the speech
service, each `ffmpeg` subprocess, the final-file existence check and read)
is an oracle carried by an environment record, and one run of the pipeline
is a pure function of that environment.  Python strings are Lean `String`s;
`str.find` / `str.rfind` / slicing are modelled exactly, including Python's
`-1` sentinel and negative-index slicing.  Braces and apostrophes inside
string literals are written with `\x7b`, `\x7d`, `\x27` escapes.
-/

namespace StorytellerAI

/-- Abstract byte strings (image / audio / video payloads). -/
abbrev Bytes := List Nat

/-- The open-brace character, `\x7b`. -/
def lbrace : Char := Char.ofNat 123

/-- The close-brace character, `\x7d`. -/
def rbrace : Char := Char.ofNat 125

/-- JSON values as produced by `json.loads`. -/
inductive Json where
  | null
  | bool (b : Bool)
  | num (n : Int)
  | str (s : String)
  | arr (elems : List Json)
  | obj (fields : List (String × Json))

/-- Python exception classes relevant to the handlers in `generate_video`
(`subprocess.CalledProcessError`; the tuple `RequestException`,
`json.JSONDecodeError`, `IndexError`, `ValueError`; and the catch-all
`Exception`). -/
inductive PyExc where
  | calledProcessError (msg : String)
  | requestException (msg : String)
  | jsonDecodeError (msg : String)
  | indexError (msg : String)
  | valueError (msg : String)
  | generic (msg : String)

deriving instance DecidableEq for PyExc

/-- The string attached to an exception (Python `str(e)`). -/
def pyExcMsg : PyExc → String
  | .calledProcessError m => m
  | .requestException m => m
  | .jsonDecodeError m => m
  | .indexError m => m
  | .valueError m => m
  | .generic m => m

/-- The dictionary returned by `generate_video`:
`{ video_bytes, images: [{name, bytes}], error }`. -/
structure RunResult where
  video_bytes : Option Bytes
  images : List (String × Bytes)
  error : Option String

deriving instance DecidableEq for RunResult

/-- The three `except` clauses of `generate_video` (src/app.py lines 212-217):
each maps a raised exception to a returned dictionary whose `images` list is
the empty list literal written in the handler. -/
def handleExc : PyExc → RunResult
  | .calledProcessError _ =>
      { video_bytes := none, images := [],
        error := some "FFmpeg error occurred (see server logs)." }
  | .requestException m =>
      { video_bytes := none, images := [], error := some ("Generation error: " ++ m) }
  | .jsonDecodeError m =>
      { video_bytes := none, images := [], error := some ("Generation error: " ++ m) }
  | .indexError m =>
      { video_bytes := none, images := [], error := some ("Generation error: " ++ m) }
  | .valueError m =>
      { video_bytes := none, images := [], error := some ("Generation error: " ++ m) }
  | .generic m =>
      { video_bytes := none, images := [], error := some ("Unexpected error: " ++ m) }

/-- Index of the first occurrence of `c` (Python `str.find`, before the
`-1` encoding). -/
def charFind (c : Char) : List Char → Option Nat
  | [] => none
  | x :: xs => if x = c then some 0 else (charFind c xs).map (· + 1)

/-- Index of the last occurrence of `c` (Python `str.rfind`, before the
`-1` encoding). -/
def charRfind (c : Char) : List Char → Option Nat
  | [] => none
  | x :: xs =>
    match charRfind c xs with
    | some i => some (i + 1)
    | none => if x = c then some 0 else none

/-- Python `s.find(c)`: first index, or `-1`. -/
def strFind (s : String) (c : Char) : Int :=
  match charFind c s.data with
  | some i => (i : Int)
  | none => -1

/-- Python `s.rfind(c)`: last index, or `-1`. -/
def strRfind (s : String) (c : Char) : Int :=
  match charRfind c s.data with
  | some i => (i : Int)
  | none => -1

/-- Resolve one Python slice bound against a length: negative values count
from the end (clamped at 0), nonnegative values are clamped at the length. -/
def pyBound (len : Nat) (i : Int) : Nat :=
  if i < 0 then ((len : Int) + i).toNat else min i.toNat len

/-- Python `s[a:b]`. -/
def pySlice (s : String) (a b : Int) : String :=
  String.mk ((s.data.take (pyBound s.data.length b)).drop (pyBound s.data.length a))

/-- src/app.py lines 122-126: locate the first open brace and the last close
brace, raise `JSONDecodeError` when the guard fires, otherwise slice.  The
guard compares `rfind + 1` with `-1`, exactly as the source does. -/
def extractJson (text : String) : Except PyExc String :=
  let jsonStartIndex : Int := strFind text lbrace
  let jsonEndIndex : Int := strRfind text rbrace + 1
  if jsonStartIndex = -1 ∨ jsonEndIndex = -1 then
    Except.error (PyExc.jsonDecodeError "Could not find JSON in model response")
  else
    Except.ok (pySlice text jsonStartIndex jsonEndIndex)

/-- Python `value.get(key, default)`: defined on dictionaries; on any other
value the attribute access raises `AttributeError` (an unclassified
exception). -/
def pyGet (j : Json) (k : String) (dflt : Json) : Except PyExc Json :=
  match j with
  | .obj fields => Except.ok ((fields.lookup k).getD dflt)
  | _ => Except.error (PyExc.generic "AttributeError: object has no attribute get")

/-- Python truthiness of a decoded JSON value. -/
def Json.truthy : Json → Bool
  | .null => false
  | .bool b => b
  | .num n => n != 0
  | .str s => s != ""
  | .arr elems => !elems.isEmpty
  | .obj fields => !fields.isEmpty

/-- Python iteration over a decoded JSON value (the `for ... in scenes`
loop): lists yield elements, strings yield one-character strings,
dictionaries yield keys, everything else raises `TypeError`. -/
def jsonIterate : Json → Except PyExc (List Json)
  | .arr elems => Except.ok elems
  | .str s => Except.ok (s.data.map (fun ch => Json.str (String.mk [ch])))
  | .obj fields => Except.ok (fields.map (fun kv => Json.str kv.fst))
  | _ => Except.error (PyExc.generic "TypeError: object is not iterable")

/-- src/app.py lines 122-130 plus the loop header: extract the brace-bounded
slice, decode it with `json.loads` (the `loads` oracle), read
`storyboard.get("scenes", [])`, raise `ValueError` when that value is falsy,
and iterate it. -/
def parseScenes (loads : String → Except String Json) (text : String) :
    Except PyExc (List Json) :=
  match extractJson text with
  | .error e => Except.error e
  | .ok jsonOnly =>
    match loads jsonOnly with
    | .error m => Except.error (PyExc.jsonDecodeError m)
    | .ok storyboard =>
      match pyGet storyboard "scenes" (Json.arr []) with
      | .error e => Except.error e
      | .ok scenes =>
        if scenes.truthy = false then
          Except.error (PyExc.valueError "No scenes found in the storyboard JSON.")
        else jsonIterate scenes

/-- One run's external world: the model reply, `json.loads`, the image and
speech services, the HTTP fetch, and the exit codes / effects of the three
`ffmpeg` invocation shapes. -/
structure Env where
  invoke : Except PyExc String
  loads : String → Except String Json
  imageGen : Json → Except PyExc String
  httpGet : String → Except PyExc Bytes
  tts : Json → Except PyExc Unit
  clipExit : Nat → Int
  concatExit : Int
  reencodeExit : Int
  finalExists : Bool
  finalBytes : Bytes

/-- Observable external invocations of one run, in order. -/
inductive Event where
  | imageRequest (sceneNumber : Nat)
  | fetchImage (sceneNumber : Nat)
  | audioRequest (sceneNumber : Nat)
  | encodeClip (sceneNumber : Nat)
  | concatFast
  | concatReencode

deriving instance DecidableEq for Event

/-- Loop state of `generate_video`: `images_for_download`,
`intermediate_video_files`, plus the run's event log and the scratch files
written so far. -/
structure LoopSt where
  images : List (String × Bytes)
  clips : List String
  trace : List Event
  files : List String

deriving instance DecidableEq for LoopSt

/-- Outcome of the per-scene loop body: fall through to the next scene,
`return` early (the per-clip ffmpeg failure), or raise.  The state records
everything that happened up to that point. -/
inductive StepRes where
  | next (st : LoopSt)
  | ret (r : RunResult) (st : LoopSt)
  | exc (e : PyExc) (st : LoopSt)

deriving instance DecidableEq for StepRes

/-- The loop state carried by any loop outcome. -/
def StepRes.state : StepRes → LoopSt
  | .next st => st
  | .ret _ st => st
  | .exc _ st => st

/-- `os.path.join(dir, name)` for the paths this program builds. -/
def pjoin (d name : String) : String := d ++ "/" ++ name

/-- The deterministic per-scene file name `scene_<n>.<ext>`. -/
def sceneFile (n : Nat) (ext : String) : String :=
  "scene_" ++ toString n ++ "." ++ ext

/-- src/app.py lines 137-182, one iteration: require a truthy
`image_prompt`, call the image service, fetch the image, persist it and
collect its bytes, read `voiceover_text` (default `""`), synthesize speech,
then run the per-clip ffmpeg; a nonzero exit returns the partial-images
dictionary, success appends the clip path. -/
def processScene (env : Env) (td : String) (n : Nat) (scene : Json) (st : LoopSt) :
    StepRes :=
  match pyGet scene "image_prompt" Json.null with
  | .error e => StepRes.exc e st
  | .ok imagePrompt =>
    if imagePrompt.truthy = false then
      StepRes.exc (PyExc.valueError
        ("Scene " ++ toString n ++ " missing \x27image_prompt\x27")) st
    else
      let st1 : LoopSt := { st with trace := st.trace ++ [Event.imageRequest n] }
      match env.imageGen imagePrompt with
      | .error e => StepRes.exc e st1
      | .ok url =>
        let st2 : LoopSt := { st1 with trace := st1.trace ++ [Event.fetchImage n] }
        match env.httpGet url with
        | .error e => StepRes.exc e st2
        | .ok imageData =>
          let st3 : LoopSt := { st2 with
            files := st2.files ++ [pjoin td (sceneFile n "png")],
            images := st2.images ++ [(sceneFile n "png", imageData)] }
          match pyGet scene "voiceover_text" (Json.str "") with
          | .error e => StepRes.exc e st3
          | .ok voiceoverText =>
            let st4 : LoopSt := { st3 with trace := st3.trace ++ [Event.audioRequest n] }
            match env.tts voiceoverText with
            | .error e => StepRes.exc e st4
            | .ok _ =>
              let st5 : LoopSt := { st4 with
                files := st4.files ++ [pjoin td (sceneFile n "mp3")] }
              let st6 : LoopSt := { st5 with trace := st5.trace ++ [Event.encodeClip n] }
              if env.clipExit n = 0 then
                StepRes.next { st6 with
                  files := st6.files ++ [pjoin td (sceneFile n "mp4")],
                  clips := st6.clips ++ [pjoin td (sceneFile n "mp4")] }
              else
                StepRes.ret
                  { video_bytes := none, images := st6.images,
                    error := some ("FFmpeg failed while creating scene " ++ toString n
                      ++ " (see server logs).") } st6

/-- The `for i, scene in enumerate(scenes)` loop, scene numbers 1-based. -/
def runScenes (env : Env) (td : String) (n : Nat) : List Json → LoopSt → StepRes
  | [], st => StepRes.next st
  | scene :: rest, st =>
    match processScene env td n scene st with
    | StepRes.next st2 => runScenes env td (n + 1) rest st2
    | StepRes.ret r st2 => StepRes.ret r st2
    | StepRes.exc e st2 => StepRes.exc e st2

/-- Full observable outcome of one `generate_video` call: the returned
dictionary, the invocation log, the scratch files written inside the
`tempfile.TemporaryDirectory` scope, and the lines of `filelist.txt`, when
it was written. -/
structure GenOut where
  result : RunResult
  trace : List Event
  files : List String
  manifest : Option (List String)

deriving instance DecidableEq for GenOut

/-- The lines written to `filelist.txt`: `file '<path>'` per clip, in
`intermediate_video_files` order (src/app.py lines 185-188). -/
def fileListLines (clips : List String) : List String :=
  clips.map (fun p => "file \x27" ++ p ++ "\x27")

/-- src/app.py lines 203-210: after concatenation, check that the final file
exists (else return the "not created" error) and read it. -/
def finishRun (env : Env) (td : String) (st : LoopSt) (trace : List Event)
    (files : List String) : GenOut :=
  if env.finalExists = false then
    { result := { video_bytes := none, images := st.images,
                  error := some "Final video not created." },
      trace := trace, files := files, manifest := some (fileListLines st.clips) }
  else
    { result := { video_bytes := some env.finalBytes, images := st.images,
                  error := none },
      trace := trace, files := files ++ [pjoin td "final_video.mp4"],
      manifest := some (fileListLines st.clips) }

/-- src/app.py lines 92-217, `generate_video`: the whole run under the
`try`, with the three `except` clauses folded into `handleExc`.  `td` is the
temporary directory created by the `with` statement. -/
def generate_video (env : Env) (td : String) : GenOut :=
  match env.invoke with
  | .error e => { result := handleExc e, trace := [], files := [], manifest := none }
  | .ok scriptText =>
    match parseScenes env.loads scriptText with
    | .error e => { result := handleExc e, trace := [], files := [], manifest := none }
    | .ok scenes =>
      match runScenes env td 1 scenes
          { images := [], clips := [], trace := [], files := [] } with
      | StepRes.exc e st =>
        { result := handleExc e, trace := st.trace, files := st.files, manifest := none }
      | StepRes.ret r st =>
        { result := r, trace := st.trace, files := st.files, manifest := none }
      | StepRes.next st =>
        let files1 := st.files ++ [pjoin td "filelist.txt"]
        let trace1 := st.trace ++ [Event.concatFast]
        if env.concatExit = 0 then
          finishRun env td st trace1 files1
        else
          let trace2 := trace1 ++ [Event.concatReencode]
          if env.reencodeExit = 0 then
            finishRun env td st trace2 files1
          else
            { result := { video_bytes := none, images := st.images,
                          error := some "Final FFmpeg assembly failed (see server logs)." },
              trace := trace2, files := files1, manifest := some (fileListLines st.clips) }

/-! ## The CLI variant, `src/main.py`

The module-level script: the same brace-slice parse (without the guard of
app.py), a media loop that silently skips falsy prompts and voiceovers, and
an assembly phase whose `subprocess.run(..., check=True)` calls crash the
process on a nonzero exit.  Only `json.JSONDecodeError` and `IndexError`
are caught (src/main.py line 79); cleanup (lines 107-109) removes the
intermediate clips and the manifest, and only runs on the success path. -/

/-- External world of one `main.py` execution. -/
structure MainEnv where
  responseText : String
  loads : String → Except String Json
  imageGen : Json → Except PyExc String
  httpGet : String → Except PyExc Bytes
  tts : Json → Except PyExc Unit
  clipExit : Nat → Int
  concatExit : Int

/-- Observable outcome of one `main.py` execution: the printed parse/media
error if the `except` clause fired, the uncaught exception if the process
crashed, and the files existing under `output/` when the run ended. -/
structure MainOut where
  parseError : Option String
  crash : Option PyExc
  files : List String

deriving instance DecidableEq for MainOut

/-- Which exceptions the `except (json.JSONDecodeError, IndexError)` clause
of src/main.py line 79 catches. -/
def mainCaught : PyExc → Bool
  | .jsonDecodeError _ => true
  | .indexError _ => true
  | _ => false

/-- `os.path.join("output", name)`. -/
def outJoin (name : String) : String := "output/" ++ name

/-- src/main.py lines 50-55 and the loop header: slice from the first open
brace to one past the last close brace with no `-1` guard, decode, read
`scenes` (default `[]`), iterate. -/
def mainParseScenes (loads : String → Except String Json) (text : String) :
    Except PyExc (List Json) :=
  let jsonOnly := pySlice text (strFind text lbrace) (strRfind text rbrace + 1)
  match loads jsonOnly with
  | .error m => Except.error (PyExc.jsonDecodeError m)
  | .ok storyboard =>
    match pyGet storyboard "scenes" (Json.arr []) with
    | .error e => Except.error e
    | .ok scenesVal => jsonIterate scenesVal

/-- src/main.py lines 61-69: the image half of one media-loop iteration;
a falsy `image_prompt` is skipped, not an error. -/
def mainSceneImage (env : MainEnv) (n : Nat) (scene : Json) (files : List String) :
    List String × Option PyExc :=
  match pyGet scene "image_prompt" Json.null with
  | .error e => (files, some e)
  | .ok imagePrompt =>
    if imagePrompt.truthy = false then (files, none)
    else
      match env.imageGen imagePrompt with
      | .error e => (files, some e)
      | .ok url =>
        match env.httpGet url with
        | .error e => (files, some e)
        | .ok _ => (files ++ [outJoin (sceneFile n "png")], none)

/-- src/main.py lines 71-77: the audio half; a falsy `voiceover_text`
(default `None`) is skipped. -/
def mainSceneAudio (env : MainEnv) (n : Nat) (scene : Json) (files : List String) :
    List String × Option PyExc :=
  match pyGet scene "voiceover_text" Json.null with
  | .error e => (files, some e)
  | .ok voiceoverText =>
    if voiceoverText.truthy = false then (files, none)
    else
      match env.tts voiceoverText with
      | .error e => (files, some e)
      | .ok _ => (files ++ [outJoin (sceneFile n "mp3")], none)

/-- One media-loop iteration of src/main.py. -/
def mainScene (env : MainEnv) (n : Nat) (scene : Json) (files : List String) :
    List String × Option PyExc :=
  match mainSceneImage env n scene files with
  | (files1, some e) => (files1, some e)
  | (files1, none) => mainSceneAudio env n scene files1

/-- The media loop of src/main.py (lines 59-77), scene numbers 1-based. -/
def mainLoop (env : MainEnv) (n : Nat) : List Json → List String →
    List String × Option PyExc
  | [], files => (files, none)
  | scene :: rest, files =>
    match mainScene env n scene files with
    | (files1, some e) => (files1, some e)
    | (files1, none) => mainLoop env (n + 1) rest files1

/-- src/main.py lines 85-96: the per-clip assembly loop over
`range(len(scenes))`; `check=True` turns a nonzero exit into an uncaught
`CalledProcessError`. -/
def mainClips (env : MainEnv) (n : Nat) : Nat → List String → List String →
    List String × List String × Option PyExc
  | 0, files, clips => (files, clips, none)
  | Nat.succ k, files, clips =>
    if env.clipExit n = 0 then
      mainClips env (n + 1) k (files ++ [outJoin (sceneFile n "mp4")])
        (clips ++ [outJoin (sceneFile n "mp4")])
    else
      (files, clips,
        some (PyExc.calledProcessError "ffmpeg exited nonzero while creating a scene clip"))

/-- Delete the named files (the `os.remove` loop). -/
def removeFiles (files removed : List String) : List String :=
  files.filter (fun p => !(removed.contains p))

/-- src/main.py lines 85-109: clips, manifest, final concat (`check=True`),
then removal of the intermediate clips and the manifest — reached only when
every subprocess exited zero. -/
def mainAssemble (env : MainEnv) (sceneCount : Nat) (parseError : Option String)
    (files : List String) : MainOut :=
  match mainClips env 1 sceneCount files [] with
  | (files1, _, some e) => { parseError := parseError, crash := some e, files := files1 }
  | (files1, clips, none) =>
    let files2 := files1 ++ [outJoin "filelist.txt"]
    if env.concatExit = 0 then
      let files3 := files2 ++ [outJoin "final_video.mp4"]
      { parseError := parseError, crash := none,
        files := removeFiles files3 (clips ++ [outJoin "filelist.txt"]) }
    else
      { parseError := parseError,
        crash := some (PyExc.calledProcessError "final concat exited nonzero"),
        files := files2 }

/-- One whole `main.py` execution.  A caught exception prints the error
message and falls through to assembly (with `scenes` still `[]` when the
parse itself failed); an uncaught one kills the process before assembly. -/
def mainRun (env : MainEnv) : MainOut :=
  match mainParseScenes env.loads env.responseText with
  | .error e =>
    if mainCaught e then
      mainAssemble env 0
        (some ("Error: Failed to parse the script or generate media. Details: "
          ++ pyExcMsg e)) []
    else { parseError := none, crash := some e, files := [] }
  | .ok scenes =>
    match mainLoop env 1 scenes [] with
    | (files1, some e) =>
      if mainCaught e then
        mainAssemble env scenes.length
          (some ("Error: Failed to parse the script or generate media. Details: "
            ++ pyExcMsg e)) files1
      else { parseError := none, crash := some e, files := files1 }
    | (files1, none) => mainAssemble env scenes.length none files1

/-! ## Observers and helper definitions used by the theorems -/

/-- Boolean list-prefix test on characters. -/
def strLeads : List Char → List Char → Bool
  | [], _ => true
  | _ :: _, [] => false
  | a :: as, b :: bs => a == b && strLeads as bs

/-- `p` lies strictly under directory `d` (path begins with `d ++ "/"`). -/
def underDir (d p : String) : Bool :=
  strLeads (d.data ++ [Char.ofNat 47]) p.data

/-- The files of a run that survive the `TemporaryDirectory` teardown, which
removes everything under `td` on scope exit. -/
def leftoverScratch (g : GenOut) (td : String) : List String :=
  g.files.filter (fun p => !(underDir td p))

/-- The exception raised inside the `try` of `generate_video`, if any
(reading the run off the same oracles). -/
def runRaised (env : Env) (td : String) : Option PyExc :=
  match env.invoke with
  | .error e => some e
  | .ok scriptText =>
    match parseScenes env.loads scriptText with
    | .error e => some e
    | .ok scenes =>
      match runScenes env td 1 scenes
          { images := [], clips := [], trace := [], files := [] } with
      | StepRes.exc e _ => some e
      | _ => none

/-- Neither brace occurs in `s` (prose with no stray braces). -/
def braceFree (s : String) : Bool :=
  s.data.all (fun ch => !(ch == lbrace) && !(ch == rbrace))

/-- The scene's external media steps all succeed: the prompt is truthy, the
image service, the HTTP fetch and the speech service return normally. -/
def sceneMediaOk (env : Env) (scene : Json) : Bool :=
  match scene with
  | Json.obj fields =>
    ((fields.lookup "image_prompt").getD Json.null).truthy &&
    (match env.imageGen ((fields.lookup "image_prompt").getD Json.null) with
     | .ok url =>
       (match env.httpGet url with
        | .ok _ => true
        | .error _ => false)
     | .error _ => false) &&
    (match env.tts ((fields.lookup "voiceover_text").getD (Json.str "")) with
     | .ok _ => true
     | .error _ => false)
  | _ => false

/-- The scene is fully processed: media steps succeed and its per-clip
ffmpeg exits zero. -/
def sceneStepOk (env : Env) (n : Nat) (scene : Json) : Bool :=
  sceneMediaOk env scene && (env.clipExit n == 0)

/-- Every scene of the list is fully processed, numbering from `n`. -/
def scenesOk (env : Env) (n : Nat) : List Json → Bool
  | [] => true
  | scene :: rest => sceneStepOk env n scene && scenesOk env (n + 1) rest

/-- The scene is a dictionary whose `image_prompt` is missing or falsy. -/
def sceneMissingPrompt : Json → Bool
  | Json.obj fields => !((fields.lookup "image_prompt").getD Json.null).truthy
  | _ => false

/-- The scene is a dictionary whose `voiceover_text` is missing or falsy. -/
def sceneVoiceMissing : Json → Bool
  | Json.obj fields => !((fields.lookup "voiceover_text").getD (Json.str "")).truthy
  | _ => false

/-- The image bytes fetched for a scene whose media steps succeed. -/
def fetchedBytes (env : Env) (scene : Json) : Bytes :=
  match scene with
  | Json.obj fields =>
    match env.imageGen ((fields.lookup "image_prompt").getD Json.null) with
    | .ok url =>
      (match env.httpGet url with
       | .ok b => b
       | .error _ => [])
    | .error _ => []
  | _ => []

/-- The four events of one fully processed scene, in order. -/
def sceneTrace (n : Nat) : List Event :=
  [Event.imageRequest n, Event.fetchImage n, Event.audioRequest n, Event.encodeClip n]

/-- Events of a run of fully processed scenes, numbering from `n`. -/
def expTrace (n : Nat) : List Json → List Event
  | [] => []
  | _ :: rest => sceneTrace n ++ expTrace (n + 1) rest

/-- Collected images of a run of fully processed scenes. -/
def expImages (env : Env) (n : Nat) : List Json → List (String × Bytes)
  | [] => []
  | scene :: rest => (sceneFile n "png", fetchedBytes env scene) :: expImages env (n + 1) rest

/-- Intermediate clip paths of a run of fully processed scenes. -/
def expClips (td : String) (n : Nat) : List Json → List String
  | [] => []
  | _ :: rest => pjoin td (sceneFile n "mp4") :: expClips td (n + 1) rest

/-- Scratch files of a run of fully processed scenes. -/
def expFiles (td : String) (n : Nat) : List Json → List String
  | [] => []
  | _ :: rest =>
    [pjoin td (sceneFile n "png"), pjoin td (sceneFile n "mp3"),
     pjoin td (sceneFile n "mp4")] ++ expFiles td (n + 1) rest

/-- Is the event a per-clip encoder invocation? -/
def isClipEvent : Event → Bool
  | Event.encodeClip _ => true
  | _ => false

/-- Is the event a final-concat encoder invocation (fast or re-encode)? -/
def isConcatEvent : Event → Bool
  | Event.concatFast => true
  | Event.concatReencode => true
  | _ => false

/-! ## Concrete environments used to instantiate the theorems -/

/-- A scene with both fields present and truthy. -/
def sceneGood : Json :=
  Json.obj [("image_prompt", Json.str "p"), ("voiceover_text", Json.str "v")]

/-- A scene with no `image_prompt` key. -/
def sceneNoPrompt : Json := Json.obj [("voiceover_text", Json.str "w")]

/-- A scene with a truthy prompt and no `voiceover_text` key. -/
def sceneNoVoice : Json := Json.obj [("image_prompt", Json.str "q")]

/-- Base environment: every oracle succeeds, every encoder exits zero. -/
def envBase : Env :=
  { invoke := Except.ok "\x7bx\x7d",
    loads := fun _ => Except.ok (Json.obj [("scenes", Json.arr [sceneGood])]),
    imageGen := fun _ => Except.ok "u",
    httpGet := fun _ => Except.ok [7],
    tts := fun _ => Except.ok (),
    clipExit := fun _ => 0,
    concatExit := 0, reencodeExit := 0, finalExists := true, finalBytes := [9] }

/-- Scene 1 succeeds fully, scene 2 has no `image_prompt`. -/
def envW1 : Env := { envBase with
  loads := fun _ => Except.ok (Json.obj [("scenes", Json.arr [sceneGood, sceneNoPrompt])]) }

/-- A decode oracle recognising exactly the object of the C3 instance. -/
def loadsW3 : String → Except String Json := fun s =>
  if s = "\x7b\"scenes\": [1]\x7d" then
    Except.ok (Json.obj [("scenes", Json.arr [Json.num 1])])
  else Except.error "Expecting value"

/-- Two fully successful scenes. -/
def envW4 : Env := { envBase with
  loads := fun _ => Except.ok (Json.obj [("scenes", Json.arr [sceneGood, sceneGood])]) }

/-- One successful scene; the fast concat fails, the re-encode succeeds. -/
def envW5 : Env := { envBase with concatExit := 1 }

/-- The decoded storyboard has an empty `scenes` array. -/
def envW7 : Env := { envBase with
  loads := fun _ => Except.ok (Json.obj [("scenes", Json.arr [])]) }

/-- One scene with a truthy prompt and no voiceover text. -/
def envW8 : Env := { envBase with
  loads := fun _ => Except.ok (Json.obj [("scenes", Json.arr [sceneNoVoice])]) }

/-- The model call itself raises. -/
def envW9 : Env := { envBase with invoke := Except.error (PyExc.generic "boom") }

/-- CLI environment whose storyboard decodes to an empty `scenes` array;
every subprocess exits zero. -/
def envM7 : MainEnv :=
  { responseText := "\x7b\"scenes\": []\x7d",
    loads := fun _ => Except.ok (Json.obj [("scenes", Json.arr [])]),
    imageGen := fun _ => Except.ok "u",
    httpGet := fun _ => Except.ok [1],
    tts := fun _ => Except.ok (),
    clipExit := fun _ => 0,
    concatExit := 0 }

/-- CLI environment with one good scene whose final concat exits nonzero. -/
def envM6 : MainEnv := { envM7 with
  loads := fun _ => Except.ok (Json.obj [("scenes", Json.arr [sceneGood])]),
  concatExit := 1 }

/-! ## String and list lemmas -/

theorem strData_append (s t : String) : (s ++ t).data = s.data ++ t.data := by
  cases s
  cases t
  rfl

theorem stringMk_data (s : String) : String.mk s.data = s := by
  cases s
  rfl

theorem charFind_of_not_mem {c : Char} {l : List Char} (h : c ∉ l) :
    charFind c l = none := by
  induction l with
  | nil => rfl
  | cons x xs ih =>
    simp only [List.mem_cons, not_or] at h
    have hxc : ¬x = c := fun hx => h.1 hx.symm
    simp [charFind, hxc, ih h.2]

theorem charFind_append {c : Char} {l1 : List Char} (l2 : List Char)
    (h : c ∉ l1) : charFind c (l1 ++ c :: l2) = some l1.length := by
  induction l1 with
  | nil => simp [charFind]
  | cons x xs ih =>
    simp only [List.mem_cons, not_or] at h
    have hxc : ¬x = c := fun hx => h.1 hx.symm
    simp [charFind, hxc, ih h.2]

theorem charRfind_of_not_mem {c : Char} {l : List Char} (h : c ∉ l) :
    charRfind c l = none := by
  induction l with
  | nil => rfl
  | cons x xs ih =>
    simp only [List.mem_cons, not_or] at h
    have hxc : ¬x = c := fun hx => h.1 hx.symm
    simp [charRfind, ih h.2, hxc]

theorem charRfind_append {c : Char} {l2 : List Char} (l1 : List Char)
    (h : c ∉ l2) : charRfind c (l1 ++ c :: l2) = some l1.length := by
  induction l1 with
  | nil => simp [charRfind, charRfind_of_not_mem h]
  | cons x xs ih => simp [charRfind, ih]

theorem takeLenAppend {α : Type} (a b : List α) (n : Nat) :
    (a ++ b).take (a.length + n) = a ++ b.take n := by
  induction a with
  | nil => simp
  | cons x xs ih => simp [List.take, Nat.succ_add, ih]

theorem dropLenAppend {α : Type} (a b : List α) : (a ++ b).drop a.length = b := by
  induction a with
  | nil => simp
  | cons x xs ih => simp [ih]

theorem braceFree_no_lbrace {s : String} (h : braceFree s = true) :
    lbrace ∉ s.data := by
  intro hm
  simp only [braceFree, List.all_eq_true] at h
  have := h lbrace hm
  simp at this

theorem braceFree_no_rbrace {s : String} (h : braceFree s = true) :
    rbrace ∉ s.data := by
  intro hm
  simp only [braceFree, List.all_eq_true] at h
  have := h rbrace hm
  simp at this

theorem strLeads_append (a b : List Char) : strLeads a (a ++ b) = true := by
  induction a with
  | nil => rfl
  | cons x xs ih => simp [strLeads, ih]

theorem underDir_pjoin (d name : String) : underDir d (pjoin d name) = true := by
  have hdata : (pjoin d name).data = (d.data ++ [Char.ofNat 47]) ++ name.data := by
    simp [pjoin, strData_append]
  rw [underDir, hdata]
  exact strLeads_append _ _

theorem filterNot_nil {α : Type} (f : α → Bool) :
    ∀ l : List α, (∀ p ∈ l, f p = true) → l.filter (fun p => !(f p)) = [] := by
  intro l h
  induction l with
  | nil => rfl
  | cons x xs ih =>
    have hx := h x (by simp)
    simp [List.filter, hx, ih fun p hp => h p (by simp [hp])]

theorem pyBound_coe (len k : Nat) (h : k ≤ len) : pyBound len (k : Int) = k := by
  simp only [pyBound]
  split
  · omega
  · omega

/-! ## Extraction lemmas (the brace-slice parser) -/

theorem wrapped_find (pre obj suf : String) (mid : List Char)
    (hpre : braceFree pre = true)
    (hobj : obj.data = lbrace :: mid ++ [rbrace]) :
    strFind (pre ++ obj ++ suf) lbrace = (pre.data.length : Int) := by
  have hTdata : (pre ++ obj ++ suf).data = pre.data ++ obj.data ++ suf.data := by
    rw [strData_append, strData_append]
  have h1 : pre.data ++ obj.data ++ suf.data
      = pre.data ++ lbrace :: ((mid ++ [rbrace]) ++ suf.data) := by
    rw [hobj]
    simp
  rw [strFind, hTdata, h1, charFind_append _ (braceFree_no_lbrace hpre)]

theorem wrapped_rfind (pre obj suf : String) (mid : List Char)
    (hsuf : braceFree suf = true)
    (hobj : obj.data = lbrace :: mid ++ [rbrace]) :
    strRfind (pre ++ obj ++ suf) rbrace
      = ((pre.data.length + mid.length + 1 : Nat) : Int) := by
  have hTdata : (pre ++ obj ++ suf).data = pre.data ++ obj.data ++ suf.data := by
    rw [strData_append, strData_append]
  have h2 : pre.data ++ obj.data ++ suf.data
      = (pre.data ++ lbrace :: mid) ++ rbrace :: suf.data := by
    rw [hobj]
    simp
  have hlen : (pre.data ++ lbrace :: mid).length = pre.data.length + mid.length + 1 := by
    simp
    omega
  rw [strRfind, hTdata, h2, charRfind_append _ (braceFree_no_rbrace hsuf), hlen]

theorem wrapped_slice (pre obj suf : String) (mid : List Char)
    (hpre : braceFree pre = true) (hsuf : braceFree suf = true)
    (hobj : obj.data = lbrace :: mid ++ [rbrace]) :
    pySlice (pre ++ obj ++ suf) (strFind (pre ++ obj ++ suf) lbrace)
      (strRfind (pre ++ obj ++ suf) rbrace + 1) = obj := by
  have hTdata : (pre ++ obj ++ suf).data = pre.data ++ obj.data ++ suf.data := by
    rw [strData_append, strData_append]
  have hobjlen : obj.data.length = mid.length + 2 := by
    rw [hobj]
    simp
  have hTlen : (pre ++ obj ++ suf).data.length
      = pre.data.length + (mid.length + 2) + suf.data.length := by
    rw [hTdata]
    simp [hobjlen]
    omega
  rw [wrapped_find pre obj suf mid hpre hobj, wrapped_rfind pre obj suf mid hsuf hobj]
  have hsum : ((pre.data.length + mid.length + 1 : Nat) : Int) + 1
      = ((pre.data.length + mid.length + 2 : Nat) : Int) := by
    push_cast
    ring
  rw [pySlice, hsum, pyBound_coe _ _ (by rw [hTlen]; omega),
    pyBound_coe _ _ (by rw [hTlen]; omega)]
  have htake : (pre ++ obj ++ suf).data.take (pre.data.length + mid.length + 2)
      = pre.data ++ obj.data := by
    have hlen2 : pre.data.length + mid.length + 2
        = (pre.data ++ obj.data).length + 0 := by
      simp [hobjlen]
      omega
    rw [hTdata, hlen2, takeLenAppend]
    simp
  rw [htake, dropLenAppend, stringMk_data]

theorem extractJson_of_wrapped (pre obj suf : String) (mid : List Char)
    (hpre : braceFree pre = true) (hsuf : braceFree suf = true)
    (hobj : obj.data = lbrace :: mid ++ [rbrace]) :
    extractJson (pre ++ obj ++ suf) = Except.ok obj := by
  rw [extractJson]
  rw [wrapped_find pre obj suf mid hpre hobj, wrapped_rfind pre obj suf mid hsuf hobj]
  rw [if_neg (fun h => by rcases h with h | h <;> omega)]
  have := wrapped_slice pre obj suf mid hpre hsuf hobj
  rw [wrapped_find pre obj suf mid hpre hobj, wrapped_rfind pre obj suf mid hsuf hobj] at this
  rw [this]

/-! ## Scene-loop lemmas -/

theorem processScene_mediaOk (env : Env) (td : String) (n : Nat) (scene : Json)
    (st : LoopSt) (h : sceneMediaOk env scene = true) :
    processScene env td n scene st =
      if env.clipExit n = 0 then
        StepRes.next
          { images := st.images ++ [(sceneFile n "png", fetchedBytes env scene)],
            clips := st.clips ++ [pjoin td (sceneFile n "mp4")],
            trace := st.trace ++ sceneTrace n,
            files := st.files ++ [pjoin td (sceneFile n "png"),
              pjoin td (sceneFile n "mp3"), pjoin td (sceneFile n "mp4")] }
      else
        StepRes.ret
          { video_bytes := none,
            images := st.images ++ [(sceneFile n "png", fetchedBytes env scene)],
            error := some ("FFmpeg failed while creating scene " ++ toString n
              ++ " (see server logs).") }
          { images := st.images ++ [(sceneFile n "png", fetchedBytes env scene)],
            clips := st.clips,
            trace := st.trace ++ sceneTrace n,
            files := st.files ++ [pjoin td (sceneFile n "png"),
              pjoin td (sceneFile n "mp3")] } := by
  cases scene with
  | null => simp [sceneMediaOk] at h
  | bool b => simp [sceneMediaOk] at h
  | num m => simp [sceneMediaOk] at h
  | str s => simp [sceneMediaOk] at h
  | arr xs => simp [sceneMediaOk] at h
  | obj fields =>
    simp only [sceneMediaOk, Bool.and_eq_true] at h
    obtain ⟨⟨h1, h2⟩, h3⟩ := h
    cases hig : env.imageGen ((fields.lookup "image_prompt").getD Json.null) with
    | error e => simp [hig] at h2
    | ok url =>
      simp only [hig] at h2
      cases hhg : env.httpGet url with
      | error e => simp [hhg] at h2
      | ok b =>
        cases htts : env.tts ((fields.lookup "voiceover_text").getD (Json.str "")) with
        | error e => simp [htts] at h3
        | ok u =>
          by_cases hclip : env.clipExit n = 0
          · simp [processScene, pyGet, fetchedBytes, hig, hhg, htts, h1, hclip,
              sceneTrace, List.append_assoc]
          · simp [processScene, pyGet, fetchedBytes, hig, hhg, htts, h1, hclip,
              sceneTrace, List.append_assoc]

theorem processScene_missingPrompt (env : Env) (td : String) (n : Nat) (scene : Json)
    (st : LoopSt) (h : sceneMissingPrompt scene = true) :
    processScene env td n scene st =
      StepRes.exc (PyExc.valueError
        ("Scene " ++ toString n ++ " missing \x27image_prompt\x27")) st := by
  cases scene with
  | null => simp [sceneMissingPrompt] at h
  | bool b => simp [sceneMissingPrompt] at h
  | num m => simp [sceneMissingPrompt] at h
  | str s => simp [sceneMissingPrompt] at h
  | arr xs => simp [sceneMissingPrompt] at h
  | obj fields =>
    simp only [sceneMissingPrompt, Bool.not_eq_true'] at h
    simp [processScene, pyGet, h]

theorem runScenes_ok_then (env : Env) (td : String) :
    ∀ (l1 l2 : List Json) (n : Nat) (st : LoopSt), scenesOk env n l1 = true →
    runScenes env td n (l1 ++ l2) st = runScenes env td (n + l1.length) l2
      { images := st.images ++ expImages env n l1,
        clips := st.clips ++ expClips td n l1,
        trace := st.trace ++ expTrace n l1,
        files := st.files ++ expFiles td n l1 } := by
  intro l1
  induction l1 with
  | nil =>
    intro l2 n st _
    simp [expImages, expClips, expTrace, expFiles]
  | cons scene rest ih =>
    intro l2 n st h
    simp only [scenesOk, sceneStepOk, Bool.and_eq_true, beq_iff_eq] at h
    obtain ⟨⟨hm, hclip⟩, hrest⟩ := h
    have harith : n + 1 + rest.length = n + (rest.length + 1) := by omega
    simp only [List.cons_append, List.append_eq, runScenes,
      processScene_mediaOk env td n scene st hm, if_pos hclip]
    rw [ih l2 (n + 1) _ hrest, harith]
    simp [expImages, expClips, expTrace, expFiles, List.append_assoc]

theorem runScenes_all_ok (env : Env) (td : String) (l : List Json) (n : Nat)
    (st : LoopSt) (h : scenesOk env n l = true) :
    runScenes env td n l st = StepRes.next
      { images := st.images ++ expImages env n l,
        clips := st.clips ++ expClips td n l,
        trace := st.trace ++ expTrace n l,
        files := st.files ++ expFiles td n l } := by
  have := runScenes_ok_then env td l [] n st h
  rw [List.append_nil] at this
  rw [this]
  rfl

theorem processScene_shape (env : Env) (td : String) (n : Nat) (scene : Json)
    (st : LoopSt) :
    ∃ st2 : LoopSt,
      ((∃ t, st2.trace = st.trace ++ t) ∧
       (∃ f, st2.files = st.files ++ f ∧ ∀ p ∈ f, ∃ name, p = pjoin td name)) ∧
      (processScene env td n scene st = StepRes.next st2 ∨
       (∃ r, processScene env td n scene st = StepRes.ret r st2 ∧
          r.video_bytes = none ∧ ∃ m, r.error = some m) ∨
       (∃ e, processScene env td n scene st = StepRes.exc e st2)) := by
  cases hpg : pyGet scene "image_prompt" Json.null with
  | error e =>
    exact ⟨st, ⟨⟨[], by simp⟩, ⟨[], by simp, by simp⟩⟩,
      Or.inr (Or.inr ⟨e, by simp [processScene, hpg]⟩)⟩
  | ok imagePrompt =>
    by_cases htr : imagePrompt.truthy = false
    · exact ⟨st, ⟨⟨[], by simp⟩, ⟨[], by simp, by simp⟩⟩,
        Or.inr (Or.inr ⟨PyExc.valueError
          ("Scene " ++ toString n ++ " missing \x27image_prompt\x27"),
          by simp [processScene, hpg, htr]⟩)⟩
    · cases hig : env.imageGen imagePrompt with
      | error e =>
        exact ⟨{ st with trace := st.trace ++ [Event.imageRequest n] },
          ⟨⟨[Event.imageRequest n], by simp⟩, ⟨[], by simp, by simp⟩⟩,
          Or.inr (Or.inr ⟨e, by simp [processScene, hpg, htr, hig]⟩)⟩
      | ok url =>
        cases hhg : env.httpGet url with
        | error e =>
          exact ⟨{ st with trace := st.trace ++ [Event.imageRequest n, Event.fetchImage n] },
            ⟨⟨[Event.imageRequest n, Event.fetchImage n], by simp⟩, ⟨[], by simp, by simp⟩⟩,
            Or.inr (Or.inr ⟨e, by simp [processScene, hpg, htr, hig, hhg]⟩)⟩
        | ok imageData =>
          cases hpg2 : pyGet scene "voiceover_text" (Json.str "") with
          | error e =>
            exact ⟨{ st with
                images := st.images ++ [(sceneFile n "png", imageData)],
                trace := st.trace ++ [Event.imageRequest n, Event.fetchImage n],
                files := st.files ++ [pjoin td (sceneFile n "png")] },
              ⟨⟨[Event.imageRequest n, Event.fetchImage n], by simp⟩,
               ⟨[pjoin td (sceneFile n "png")], by simp, by simp⟩⟩,
              Or.inr (Or.inr ⟨e, by simp [processScene, hpg, htr, hig, hhg, hpg2]⟩)⟩
          | ok voiceoverText =>
            cases htts : env.tts voiceoverText with
            | error e =>
              exact ⟨{ st with
                  images := st.images ++ [(sceneFile n "png", imageData)],
                  trace := st.trace ++ [Event.imageRequest n, Event.fetchImage n,
                    Event.audioRequest n],
                  files := st.files ++ [pjoin td (sceneFile n "png")] },
                ⟨⟨[Event.imageRequest n, Event.fetchImage n, Event.audioRequest n], by simp⟩,
                 ⟨[pjoin td (sceneFile n "png")], by simp, by simp⟩⟩,
                Or.inr (Or.inr ⟨e, by simp [processScene, hpg, htr, hig, hhg, hpg2, htts]⟩)⟩
            | ok u =>
              by_cases hclip : env.clipExit n = 0
              · exact ⟨{ st with
                    images := st.images ++ [(sceneFile n "png", imageData)],
                    clips := st.clips ++ [pjoin td (sceneFile n "mp4")],
                    trace := st.trace ++ sceneTrace n,
                    files := st.files ++ [pjoin td (sceneFile n "png"),
                      pjoin td (sceneFile n "mp3"), pjoin td (sceneFile n "mp4")] },
                  ⟨⟨sceneTrace n, by simp⟩,
                   ⟨[pjoin td (sceneFile n "png"), pjoin td (sceneFile n "mp3"),
                     pjoin td (sceneFile n "mp4")], by simp, by simp⟩⟩,
                  Or.inl (by
                    simp [processScene, hpg, htr, hig, hhg, hpg2, htts, hclip,
                      sceneTrace, List.append_assoc])⟩
              · exact ⟨{ st with
                    images := st.images ++ [(sceneFile n "png", imageData)],
                    trace := st.trace ++ sceneTrace n,
                    files := st.files ++ [pjoin td (sceneFile n "png"),
                      pjoin td (sceneFile n "mp3")] },
                  ⟨⟨sceneTrace n, by simp⟩,
                   ⟨[pjoin td (sceneFile n "png"), pjoin td (sceneFile n "mp3")],
                     by simp, by simp⟩⟩,
                  Or.inr (Or.inl ⟨RunResult.mk none
                    (st.images ++ [(sceneFile n "png", imageData)])
                    (some ("FFmpeg failed while creating scene " ++ toString n
                      ++ " (see server logs).")),
                    (by simp [processScene, hpg, htr, hig, hhg, hpg2, htts, hclip,
                      sceneTrace, List.append_assoc]), rfl, ⟨_, rfl⟩⟩)⟩

theorem runScenes_shape (env : Env) (td : String) :
    ∀ (l : List Json) (n : Nat) (st : LoopSt),
    ∃ st2 : LoopSt,
      ((∃ t, st2.trace = st.trace ++ t) ∧
       (∃ f, st2.files = st.files ++ f ∧ ∀ p ∈ f, ∃ name, p = pjoin td name)) ∧
      (runScenes env td n l st = StepRes.next st2 ∨
       (∃ r, runScenes env td n l st = StepRes.ret r st2 ∧
          r.video_bytes = none ∧ ∃ m, r.error = some m) ∨
       (∃ e, runScenes env td n l st = StepRes.exc e st2)) := by
  intro l
  induction l with
  | nil =>
    intro n st
    exact ⟨st, ⟨⟨[], by simp⟩, ⟨[], by simp, by simp⟩⟩, Or.inl rfl⟩
  | cons scene rest ih =>
    intro n st
    obtain ⟨stA, ⟨⟨tA, htA⟩, ⟨fA, hfA, hfAp⟩⟩, hcase⟩ := processScene_shape env td n scene st
    rcases hcase with hnext | ⟨r, hret, hrv, hre⟩ | ⟨e, hexc⟩
    · obtain ⟨stB, ⟨⟨tB, htB⟩, ⟨fB, hfB, hfBp⟩⟩, hcaseB⟩ := ih (n + 1) stA
      refine ⟨stB, ⟨⟨tA ++ tB, ?_⟩, ⟨fA ++ fB, ?_, ?_⟩⟩, ?_⟩
      · rw [htB, htA, List.append_assoc]
      · rw [hfB, hfA, List.append_assoc]
      · intro p hp
        rcases List.mem_append.mp hp with h | h
        · exact hfAp p h
        · exact hfBp p h
      · have hrun : runScenes env td n (scene :: rest) st = runScenes env td (n + 1) rest stA := by
          simp [runScenes, hnext]
        rw [hrun]
        exact hcaseB
    · refine ⟨stA, ⟨⟨tA, htA⟩, ⟨fA, hfA, hfAp⟩⟩, Or.inr (Or.inl ⟨r, ?_, hrv, hre⟩)⟩
      simp [runScenes, hret]
    · refine ⟨stA, ⟨⟨tA, htA⟩, ⟨fA, hfA, hfAp⟩⟩, Or.inr (Or.inr ⟨e, ?_⟩)⟩
      simp [runScenes, hexc]

/-! ## Bridging lemmas for the expected traces -/

theorem range_map_pjoin (td : String) (len n : Nat) :
    (List.range (len + 1)).map (fun j => pjoin td (sceneFile (n + j) "mp4"))
      = pjoin td (sceneFile n "mp4")
        :: (List.range len).map (fun j => pjoin td (sceneFile (n + 1 + j) "mp4")) := by
  rw [List.range_succ_eq_map]
  simp only [List.map_cons, List.map_map, Nat.add_zero]
  refine congrArg _ (List.map_congr_left ?_)
  intro a _
  simp only [Function.comp_apply, Nat.succ_eq_add_one]
  have : n + (a + 1) = n + 1 + a := by omega
  rw [this]

theorem range_map_clip (len n : Nat) :
    (List.range (len + 1)).map (fun j => Event.encodeClip (n + j))
      = Event.encodeClip n
        :: (List.range len).map (fun j => Event.encodeClip (n + 1 + j)) := by
  rw [List.range_succ_eq_map]
  simp only [List.map_cons, List.map_map, Nat.add_zero]
  refine congrArg _ (List.map_congr_left ?_)
  intro a _
  simp only [Function.comp_apply, Nat.succ_eq_add_one]
  have : n + (a + 1) = n + 1 + a := by omega
  rw [this]

theorem expClips_eq_range (td : String) :
    ∀ (l : List Json) (n : Nat),
    expClips td n l = (List.range l.length).map (fun j => pjoin td (sceneFile (n + j) "mp4")) := by
  intro l
  induction l with
  | nil => intro n; simp [expClips]
  | cons scene rest ih =>
    intro n
    simp only [List.length_cons, range_map_pjoin, expClips, ih (n + 1)]

theorem filter_clip_expTrace :
    ∀ (l : List Json) (n : Nat),
    (expTrace n l).filter isClipEvent
      = (List.range l.length).map (fun j => Event.encodeClip (n + j)) := by
  intro l
  induction l with
  | nil => intro n; simp [expTrace]
  | cons scene rest ih =>
    intro n
    simp only [List.length_cons, range_map_clip, expTrace, List.filter_append, ih (n + 1)]
    simp [sceneTrace, isClipEvent]

theorem filter_concat_expTrace :
    ∀ (l : List Json) (n : Nat), (expTrace n l).filter isConcatEvent = [] := by
  intro l
  induction l with
  | nil => intro n; simp [expTrace]
  | cons scene rest ih =>
    intro n
    simp [expTrace, sceneTrace, isConcatEvent, List.filter_append, ih]

theorem encodeClip_expTrace_lt :
    ∀ (l : List Json) (n k : Nat), Event.encodeClip k ∈ expTrace n l → k < n + l.length := by
  intro l
  induction l with
  | nil => intro n k h; simp [expTrace] at h
  | cons scene rest ih =>
    intro n k h
    simp only [expTrace, List.mem_append] at h
    simp only [List.length_cons]
    rcases h with h | h
    · have hk : k = n := by
        simp [sceneTrace] at h
        exact h
      omega
    · have := ih (n + 1) k h
      omega

theorem handleExc_video (e : PyExc) : (handleExc e).video_bytes = none := by
  cases e <;> rfl

theorem handleExc_error (e : PyExc) : ∃ m, (handleExc e).error = some m := by
  cases e <;> exact ⟨_, rfl⟩

theorem handleExc_images (e : PyExc) : (handleExc e).images = [] := by
  cases e <;> rfl

/-! ## Whole-run lemmas -/

theorem genOut_assembly (env : Env) (td : String) (text : String) (l : List Json)
    (hinv : env.invoke = Except.ok text)
    (hps : parseScenes env.loads text = Except.ok l)
    (hok : scenesOk env 1 l = true) :
    (generate_video env td).trace
        = expTrace 1 l ++ (if env.concatExit = 0 then [Event.concatFast]
            else [Event.concatFast, Event.concatReencode])
      ∧ (generate_video env td).manifest = some (fileListLines (expClips td 1 l)) := by
  have hrun := runScenes_all_ok env td l 1 ⟨[], [], [], []⟩ hok
  by_cases hc : env.concatExit = 0
  · by_cases hf : env.finalExists = false
    · simp [generate_video, hinv, hps, hrun, hc, finishRun, hf]
    · simp [generate_video, hinv, hps, hrun, hc, finishRun, hf]
  · by_cases hr : env.reencodeExit = 0
    · by_cases hf : env.finalExists = false
      · simp [generate_video, hinv, hps, hrun, hc, hr, finishRun, hf, List.append_assoc]
      · simp [generate_video, hinv, hps, hrun, hc, hr, finishRun, hf, List.append_assoc]
    · simp [generate_video, hinv, hps, hrun, hc, hr, List.append_assoc]

theorem genOut_trace_super (env : Env) (td : String) (text : String) (scenes : List Json)
    (hinv : env.invoke = Except.ok text)
    (hps : parseScenes env.loads text = Except.ok scenes)
    (ev : Event)
    (hm : ev ∈ (runScenes env td 1 scenes
      { images := [], clips := [], trace := [], files := [] }).state.trace) :
    ev ∈ (generate_video env td).trace := by
  cases hrs : runScenes env td 1 scenes
      { images := [], clips := [], trace := [], files := [] } with
  | exc e st =>
    rw [hrs] at hm
    simp only [StepRes.state] at hm
    simp [generate_video, hinv, hps, hrs, hm]
  | ret r st =>
    rw [hrs] at hm
    simp only [StepRes.state] at hm
    simp [generate_video, hinv, hps, hrs, hm]
  | next st =>
    rw [hrs] at hm
    simp only [StepRes.state] at hm
    by_cases hc : env.concatExit = 0
    · by_cases hf : env.finalExists = false
      · simp [generate_video, hinv, hps, hrs, hc, finishRun, hf, hm]
      · simp [generate_video, hinv, hps, hrs, hc, finishRun, hf, hm]
    · by_cases hr : env.reencodeExit = 0
      · by_cases hf : env.finalExists = false
        · simp [generate_video, hinv, hps, hrs, hc, hr, finishRun, hf, hm]
        · simp [generate_video, hinv, hps, hrs, hc, hr, finishRun, hf, hm]
      · simp [generate_video, hinv, hps, hrs, hc, hr, hm]

/-! ## Claim theorems -/

/-- C2: on the text `\x7babc` — first open brace present, close brace absent —
the extractor does not fail with the "no JSON found" condition: the guard
compares `rfind + 1` (which is `0` here, and never `-1`) with `-1`, so the
run slices the empty string and hands it to `json.loads`, whose own
"Expecting value" `JSONDecodeError` is reported instead.  When the open
brace is absent the guard does fire. -/
theorem c2_missing_end_brace_not_reported :
    extractJson "\x7babc" = Except.ok ""
      ∧ extractJson "abc"
        = Except.error (PyExc.jsonDecodeError "Could not find JSON in model response") :=
  ⟨rfl, rfl⟩

/-- C10: in every result dictionary returned by `generate_video`, the error
field is `None` exactly when the final video bytes are present. -/
theorem c10_error_iff_no_video (env : Env) (td : String) :
    ((generate_video env td).result.error = none
      ↔ (generate_video env td).result.video_bytes ≠ none) := by
  cases hinv : env.invoke with
  | error e =>
    obtain ⟨m, hm⟩ := handleExc_error e
    simp [generate_video, hinv, hm, handleExc_video e]
  | ok scriptText =>
    cases hps : parseScenes env.loads scriptText with
    | error e =>
      obtain ⟨m, hm⟩ := handleExc_error e
      simp [generate_video, hinv, hps, hm, handleExc_video e]
    | ok scenes =>
      obtain ⟨st2, _, hcase⟩ := runScenes_shape env td scenes 1
        { images := [], clips := [], trace := [], files := [] }
      rcases hcase with hnext | ⟨r, hret, hrv, m, hre⟩ | ⟨e, hexc⟩
      · by_cases hc : env.concatExit = 0
        · by_cases hf : env.finalExists = false
          · simp [generate_video, hinv, hps, hnext, hc, finishRun, hf]
          · simp [generate_video, hinv, hps, hnext, hc, finishRun, hf]
        · by_cases hr : env.reencodeExit = 0
          · by_cases hf : env.finalExists = false
            · simp [generate_video, hinv, hps, hnext, hc, hr, finishRun, hf]
            · simp [generate_video, hinv, hps, hnext, hc, hr, finishRun, hf]
          · simp [generate_video, hinv, hps, hnext, hc, hr]
      · simp [generate_video, hinv, hps, hret, hrv, hre]
      · obtain ⟨m, hm⟩ := handleExc_error e
        simp [generate_video, hinv, hps, hexc, hm, handleExc_video e]

/-- C9: every exception raised inside the `try` of `generate_video` is
caught and converted into a returned dictionary with a non-null error
message; no exception escapes the function. -/
theorem c9_raised_error_is_caught (env : Env) (td : String) (e : PyExc)
    (h : runRaised env td = some e) :
    (generate_video env td).result.error.isSome = true := by
  cases hinv : env.invoke with
  | error e2 =>
    obtain ⟨m, hm⟩ := handleExc_error e2
    simp [generate_video, hinv, hm]
  | ok scriptText =>
    cases hps : parseScenes env.loads scriptText with
    | error e2 =>
      obtain ⟨m, hm⟩ := handleExc_error e2
      simp [generate_video, hinv, hps, hm]
    | ok scenes =>
      cases hrs : runScenes env td 1 scenes
          { images := [], clips := [], trace := [], files := [] } with
      | exc e2 st =>
        obtain ⟨m, hm⟩ := handleExc_error e2
        simp [generate_video, hinv, hps, hrs, hm]
      | ret r st =>
        simp [runRaised, hinv, hps, hrs] at h
      | next st =>
        simp [runRaised, hinv, hps, hrs] at h

/-- C9 witness: an environment whose model call raises is caught and
surfaced as a non-null error. -/
theorem c9_witness : (generate_video envW9 "t").result.error.isSome = true :=
  c9_raised_error_is_caught envW9 "t" (PyExc.generic "boom") rfl

/-- C7 (amended, app side): when the extracted object decodes to a
dictionary whose `scenes` entry is missing or falsy, `generate_video`
returns the "no scenes" error with no video bytes and no images. -/
theorem c7_no_scenes_error (env : Env) (td : String) (text sv : String)
    (fields : List (String × Json))
    (hinv : env.invoke = Except.ok text)
    (hex : extractJson text = Except.ok sv)
    (hload : env.loads sv = Except.ok (Json.obj fields))
    (hempty : ((fields.lookup "scenes").getD (Json.arr [])).truthy = false) :
    (generate_video env td).result
      = { video_bytes := none, images := [],
          error := some "Generation error: No scenes found in the storyboard JSON." } := by
  have hps : parseScenes env.loads text
      = Except.error (PyExc.valueError "No scenes found in the storyboard JSON.") := by
    simp [parseScenes, hex, hload, pyGet, hempty]
  simp [generate_video, hinv, hps, handleExc]

/-- C7 witness: a decoded storyboard with an empty `scenes` array yields
exactly the "no scenes" error in the app pipeline. -/
theorem c7_witness :
    (generate_video envW7 "t").result
      = { video_bytes := none, images := [],
          error := some "Generation error: No scenes found in the storyboard JSON." } :=
  c7_no_scenes_error envW7 "t" "\x7bx\x7d" "\x7bx\x7d" [("scenes", Json.arr [])]
    rfl rfl rfl rfl

/-- C7 counterexample: in the CLI variant, the same empty-`scenes`
storyboard produces no error at all — the run ends with no printed parse
error, no crash, and a "final" video file — so no "no scenes" condition is
reported there. -/
theorem c7_counterexample_cli_silent :
    mainRun envM7
      = { parseError := none, crash := none, files := [outJoin "final_video.mp4"] } := rfl

/-- C5: when every scene is processed, the fast concat exits nonzero, the
re-encode fallback exits zero, and the final file exists, the run returns
success: a null error and the re-encoded bytes. -/
theorem c5_reencode_fallback_success (env : Env) (td : String) (text : String)
    (l : List Json)
    (hinv : env.invoke = Except.ok text)
    (hps : parseScenes env.loads text = Except.ok l)
    (hok : scenesOk env 1 l = true)
    (hconcat : env.concatExit ≠ 0)
    (hre : env.reencodeExit = 0)
    (hex : env.finalExists = true) :
    (generate_video env td).result.error = none
      ∧ (generate_video env td).result.video_bytes = some env.finalBytes := by
  have hrun := runScenes_all_ok env td l 1 ⟨[], [], [], []⟩ hok
  simp [generate_video, hinv, hps, hrun, hconcat, hre, finishRun, hex]

/-- C5 witness: one good scene, fast concat exits 1, re-encode exits 0. -/
theorem c5_witness :
    (generate_video envW5 "t").result.error = none
      ∧ (generate_video envW5 "t").result.video_bytes = some [9] :=
  c5_reencode_fallback_success envW5 "t" "\x7bx\x7d" [sceneGood]
    rfl rfl rfl (by decide) rfl rfl

/-- C4: when every one of the `N ≥ 1` scenes is fully processed, the
per-clip encoder runs exactly `N` times in scene order, the manifest lists
the `N` clip paths in scene order, and the final concat runs once when the
fast pass exits zero, twice otherwise. -/
theorem c4_assembly_counts (env : Env) (td : String) (text : String) (l : List Json)
    (hinv : env.invoke = Except.ok text)
    (hps : parseScenes env.loads text = Except.ok l)
    (hok : scenesOk env 1 l = true)
    (_hne : l ≠ []) :
    (generate_video env td).trace.filter isClipEvent
        = (List.range l.length).map (fun j => Event.encodeClip (1 + j))
      ∧ (generate_video env td).manifest
        = some (fileListLines
            ((List.range l.length).map (fun j => pjoin td (sceneFile (1 + j) "mp4"))))
      ∧ (generate_video env td).trace.filter isConcatEvent
        = (if env.concatExit = 0 then [Event.concatFast]
           else [Event.concatFast, Event.concatReencode]) := by
  obtain ⟨ht, hmani⟩ := genOut_assembly env td text l hinv hps hok
  refine ⟨?_, ?_, ?_⟩
  · rw [ht, List.filter_append, filter_clip_expTrace]
    by_cases hc : env.concatExit = 0
    · simp [hc, isClipEvent]
    · simp [hc, isClipEvent]
  · rw [hmani, expClips_eq_range]
  · rw [ht, List.filter_append, filter_concat_expTrace]
    by_cases hc : env.concatExit = 0
    · simp [hc, isConcatEvent]
    · simp [hc, isConcatEvent]

/-- C4 witness: two fully successful scenes, fast concat succeeding. -/
theorem c4_witness :
    (generate_video envW4 "t").trace.filter isClipEvent
        = (List.range ([sceneGood, sceneGood] : List Json).length).map
            (fun j => Event.encodeClip (1 + j))
      ∧ (generate_video envW4 "t").manifest
        = some (fileListLines
            ((List.range ([sceneGood, sceneGood] : List Json).length).map
              (fun j => pjoin "t" (sceneFile (1 + j) "mp4"))))
      ∧ (generate_video envW4 "t").trace.filter isConcatEvent
        = (if envW4.concatExit = 0 then [Event.concatFast]
           else [Event.concatFast, Event.concatReencode]) :=
  c4_assembly_counts envW4 "t" "\x7bx\x7d" [sceneGood, sceneGood] rfl rfl rfl (by simp)

/-- C8: a scene whose `voiceover_text` is missing or falsy is not an error:
given that the scenes before it are fully processed and its own external
media calls succeed, the audio step is still invoked (with the empty
default) and the pipeline reaches the per-clip encoder for that scene. -/
theorem runScenes_mediaOk_mem (env : Env) (td : String) (n : Nat) (scene : Json)
    (rest : List Json) (st : LoopSt)
    (hmedia : sceneMediaOk env scene = true) (ev : Event)
    (hev : ev ∈ sceneTrace n) :
    ev ∈ (runScenes env td n (scene :: rest) st).state.trace := by
  by_cases hclip : env.clipExit n = 0
  · have h1 : runScenes env td n (scene :: rest) st
        = runScenes env td (n + 1) rest
          { images := st.images ++ [(sceneFile n "png", fetchedBytes env scene)],
            clips := st.clips ++ [pjoin td (sceneFile n "mp4")],
            trace := st.trace ++ sceneTrace n,
            files := st.files ++ [pjoin td (sceneFile n "png"),
              pjoin td (sceneFile n "mp3"), pjoin td (sceneFile n "mp4")] } := by
      simp only [runScenes, processScene_mediaOk env td n scene st hmedia, if_pos hclip]
    rw [h1]
    obtain ⟨st2, ⟨⟨t2, ht2⟩, _⟩, hcase⟩ := runScenes_shape env td rest (n + 1)
      { images := st.images ++ [(sceneFile n "png", fetchedBytes env scene)],
        clips := st.clips ++ [pjoin td (sceneFile n "mp4")],
        trace := st.trace ++ sceneTrace n,
        files := st.files ++ [pjoin td (sceneFile n "png"),
          pjoin td (sceneFile n "mp3"), pjoin td (sceneFile n "mp4")] }
    have hmem2 : ev ∈ st2.trace := by
      rw [ht2]
      simp only [List.mem_append]
      left
      right
      exact hev
    rcases hcase with hnext | ⟨r, hret, _, _⟩ | ⟨e, hexc⟩
    · rw [hnext]
      exact hmem2
    · rw [hret]
      exact hmem2
    · rw [hexc]
      exact hmem2
  · have h1 : runScenes env td n (scene :: rest) st
        = StepRes.ret
          { video_bytes := none,
            images := st.images ++ [(sceneFile n "png", fetchedBytes env scene)],
            error := some ("FFmpeg failed while creating scene " ++ toString n
              ++ " (see server logs).") }
          { images := st.images ++ [(sceneFile n "png", fetchedBytes env scene)],
            clips := st.clips,
            trace := st.trace ++ sceneTrace n,
            files := st.files ++ [pjoin td (sceneFile n "png"),
              pjoin td (sceneFile n "mp3")] } := by
      simp only [runScenes, processScene_mediaOk env td n scene st hmedia, if_neg hclip]
    rw [h1]
    simp only [StepRes.state, List.mem_append]
    right
    exact hev

theorem c8_empty_voiceover_proceeds (env : Env) (td : String) (text : String)
    (pre : List Json) (scene : Json) (rest : List Json)
    (hinv : env.invoke = Except.ok text)
    (hps : parseScenes env.loads text = Except.ok (pre ++ scene :: rest))
    (hpre : scenesOk env 1 pre = true)
    (hmedia : sceneMediaOk env scene = true)
    (_hvoice : sceneVoiceMissing scene = true) :
    Event.audioRequest (1 + pre.length) ∈ (generate_video env td).trace
      ∧ Event.encodeClip (1 + pre.length) ∈ (generate_video env td).trace := by
  have hseq := runScenes_ok_then env td pre (scene :: rest) 1
    ⟨[], [], [], []⟩ hpre
  have hmemA : Event.audioRequest (1 + pre.length) ∈ sceneTrace (1 + pre.length) := by
    simp [sceneTrace]
  have hmemC : Event.encodeClip (1 + pre.length) ∈ sceneTrace (1 + pre.length) := by
    simp [sceneTrace]
  have hboth : ∀ ev, ev ∈ sceneTrace (1 + pre.length) →
      ev ∈ (runScenes env td 1 (pre ++ scene :: rest)
        { images := [], clips := [], trace := [], files := [] }).state.trace := by
    intro ev hev
    rw [hseq]
    exact runScenes_mediaOk_mem env td (1 + pre.length) scene rest _ hmedia ev hev
  exact ⟨genOut_trace_super env td text (pre ++ scene :: rest) hinv hps _ (hboth _ hmemA),
    genOut_trace_super env td text (pre ++ scene :: rest) hinv hps _ (hboth _ hmemC)⟩

/-- C8 witness: a single scene with a prompt but no `voiceover_text`
still reaches both the audio step and the per-clip encoder. -/
theorem c8_witness :
    Event.audioRequest (1 + List.length ([] : List Json)) ∈ (generate_video envW8 "t").trace
      ∧ Event.encodeClip (1 + List.length ([] : List Json))
        ∈ (generate_video envW8 "t").trace :=
  c8_empty_voiceover_proceeds envW8 "t" "\x7bx\x7d" [] sceneNoVoice []
    rfl rfl rfl rfl rfl

/-- C1 (amended): when the first defective scene `k = pre.length + 1` has a
missing or falsy `image_prompt` and all earlier scenes were fully
processed, the run raises before any encoder invocation for scene `k`
(indeed before any further external call), and the `except ValueError`
handler returns the scene-named error with an EMPTY images list: the images
collected for the scenes before `k` are discarded, not preserved. -/
theorem c1_missing_prompt_aborts (env : Env) (td : String) (text : String)
    (pre : List Json) (bad : Json) (rest : List Json)
    (hinv : env.invoke = Except.ok text)
    (hps : parseScenes env.loads text = Except.ok (pre ++ bad :: rest))
    (hpre : scenesOk env 1 pre = true)
    (hbad : sceneMissingPrompt bad = true) :
    (generate_video env td).result.error
        = some ("Generation error: " ++ ("Scene " ++ toString (1 + pre.length)
            ++ " missing \x27image_prompt\x27"))
      ∧ (generate_video env td).result.images = []
      ∧ (generate_video env td).result.video_bytes = none
      ∧ (generate_video env td).trace = expTrace 1 pre
      ∧ Event.encodeClip (1 + pre.length) ∉ (generate_video env td).trace := by
  have hseq := runScenes_ok_then env td pre (bad :: rest) 1 ⟨[], [], [], []⟩ hpre
  have hstep : runScenes env td 1 (pre ++ bad :: rest)
      { images := [], clips := [], trace := [], files := [] }
      = StepRes.exc (PyExc.valueError ("Scene " ++ toString (1 + pre.length)
          ++ " missing \x27image_prompt\x27"))
        { images := ([] : List (String × Bytes)) ++ expImages env 1 pre,
          clips := ([] : List String) ++ expClips td 1 pre,
          trace := ([] : List Event) ++ expTrace 1 pre,
          files := ([] : List String) ++ expFiles td 1 pre } := by
    rw [hseq]
    simp only [runScenes,
      processScene_missingPrompt env td (1 + pre.length) bad _ hbad]
  have hgen : generate_video env td
      = { result := handleExc (PyExc.valueError ("Scene " ++ toString (1 + pre.length)
            ++ " missing \x27image_prompt\x27")),
          trace := ([] : List Event) ++ expTrace 1 pre,
          files := ([] : List String) ++ expFiles td 1 pre,
          manifest := none } := by
    simp [generate_video, hinv, hps, hstep]
  refine ⟨?_, ?_, ?_, ?_, ?_⟩
  · rw [hgen]
    rfl
  · rw [hgen]
    rfl
  · rw [hgen]
    rfl
  · rw [hgen]
    simp
  · rw [hgen]
    intro hmem
    simp only [List.nil_append] at hmem
    have := encodeClip_expTrace_lt pre 1 (1 + pre.length) hmem
    omega

/-- C1 counterexample: scene 1 succeeds fully (its image is fetched, as the
trace shows, and its scratch file is written), scene 2 lacks
`image_prompt`; the returned result's images list is empty — the collected
scene-1 image is NOT in the result, contradicting the claim that images
from prior scenes remain in the result. -/
theorem c1_counterexample_images_discarded :
    (generate_video envW1 "t").result.images = []
      ∧ Event.fetchImage 1 ∈ (generate_video envW1 "t").trace
      ∧ pjoin "t" (sceneFile 1 "png") ∈ (generate_video envW1 "t").files
      ∧ ("scene_1.png", ([7] : Bytes)) ∉ (generate_video envW1 "t").result.images := by
  have h : generate_video envW1 "t"
      = { result := { video_bytes := none, images := [],
                      error := some "Generation error: Scene 2 missing \x27image_prompt\x27" },
          trace := [Event.imageRequest 1, Event.fetchImage 1, Event.audioRequest 1,
                    Event.encodeClip 1],
          files := [pjoin "t" (sceneFile 1 "png"), pjoin "t" (sceneFile 1 "mp3"),
                    pjoin "t" (sceneFile 1 "mp4")],
          manifest := none } := by rfl
  rw [h]
  refine ⟨rfl, ?_, ?_, ?_⟩
  · simp
  · simp
  · simp

/-- C1 witness (for the amended theorem): the same two-scene instance. -/
theorem c1_witness :
    (generate_video envW1 "t").result.error
        = some ("Generation error: " ++ ("Scene "
            ++ toString (1 + List.length ([sceneGood] : List Json))
            ++ " missing \x27image_prompt\x27"))
      ∧ (generate_video envW1 "t").result.images = []
      ∧ (generate_video envW1 "t").result.video_bytes = none
      ∧ (generate_video envW1 "t").trace = expTrace 1 [sceneGood]
      ∧ Event.encodeClip (1 + List.length ([sceneGood] : List Json))
          ∉ (generate_video envW1 "t").trace :=
  c1_missing_prompt_aborts envW1 "t" "\x7bx\x7d" [sceneGood] sceneNoPrompt []
    rfl rfl rfl rfl

/-- C3: for text that is prose with no stray braces around one well-formed
object (it starts with the first open brace and ends with the last close
brace), the parser extracts exactly that object, and — when it decodes to a
dictionary with a nonempty `scenes` array — yields its scenes in original
order; likewise along the CLI variant's parse. -/
theorem c3_parser_extracts_object (loads : String → Except String Json)
    (pre obj suf : String) (mid : List Char) (fields : List (String × Json))
    (l : List Json)
    (hpre : braceFree pre = true) (hsuf : braceFree suf = true)
    (hobj : obj.data = lbrace :: mid ++ [rbrace])
    (hload : loads obj = Except.ok (Json.obj fields))
    (hsc : fields.lookup "scenes" = some (Json.arr l))
    (hne : l ≠ []) :
    extractJson (pre ++ obj ++ suf) = Except.ok obj
      ∧ parseScenes loads (pre ++ obj ++ suf) = Except.ok l
      ∧ mainParseScenes loads (pre ++ obj ++ suf) = Except.ok l := by
  have hex := extractJson_of_wrapped pre obj suf mid hpre hsuf hobj
  have htr : (Json.arr l).truthy = true := by
    cases l with
    | nil => exact absurd rfl hne
    | cons a as => simp [Json.truthy]
  refine ⟨hex, ?_, ?_⟩
  · simp [parseScenes, hex, hload, pyGet, hsc, htr, jsonIterate]
  · have hsl := wrapped_slice pre obj suf mid hpre hsuf hobj
    simp [mainParseScenes, hsl, hload, pyGet, hsc, jsonIterate]

/-- C3 witness: prose around a one-scene object. -/
theorem c3_witness :
    extractJson ("say " ++ "\x7b\"scenes\": [1]\x7d" ++ " end")
        = Except.ok "\x7b\"scenes\": [1]\x7d"
      ∧ parseScenes loadsW3 ("say " ++ "\x7b\"scenes\": [1]\x7d" ++ " end")
        = Except.ok [Json.num 1]
      ∧ mainParseScenes loadsW3 ("say " ++ "\x7b\"scenes\": [1]\x7d" ++ " end")
        = Except.ok [Json.num 1] :=
  c3_parser_extracts_object loadsW3 "say " "\x7b\"scenes\": [1]\x7d" " end"
    ("\"scenes\": [1]" : String).data [("scenes", Json.arr [Json.num 1])] [Json.num 1]
    rfl rfl rfl rfl rfl (List.cons_ne_nil _ _)

/-- C6 (amended, app side): every scratch file `generate_video` writes lies
under the run's temporary directory, so the `TemporaryDirectory` teardown —
which runs on every exit path — leaves nothing behind. -/
theorem c6_tempdir_cleanup (env : Env) (td : String) :
    leftoverScratch (generate_video env td) td = [] := by
  have hall : ∀ p ∈ (generate_video env td).files, underDir td p = true := by
    intro p hp
    suffices h : ∃ name, p = pjoin td name by
      obtain ⟨name, rfl⟩ := h
      exact underDir_pjoin td name
    cases hinv : env.invoke with
    | error e => simp [generate_video, hinv] at hp
    | ok scriptText =>
      cases hps : parseScenes env.loads scriptText with
      | error e => simp [generate_video, hinv, hps] at hp
      | ok scenes =>
        obtain ⟨st2, ⟨_, ⟨f, hf, hfp⟩⟩, hcase⟩ := runScenes_shape env td scenes 1
          { images := [], clips := [], trace := [], files := [] }
        have hstf : ∀ q, q ∈ st2.files → ∃ name, q = pjoin td name := by
          intro q hq
          rw [hf] at hq
          simp only [List.nil_append] at hq
          exact hfp q hq
        rcases hcase with hnext | ⟨r, hret, _, _⟩ | ⟨e, hexc⟩
        · by_cases hc : env.concatExit = 0
          · by_cases hfex : env.finalExists = false
            · simp [generate_video, hinv, hps, hnext, hc, finishRun, hfex] at hp
              rcases hp with hp | hp
              · exact hstf p hp
              · exact ⟨"filelist.txt", hp⟩
            · simp [generate_video, hinv, hps, hnext, hc, finishRun, hfex] at hp
              rcases hp with hp | hp | hp
              · exact hstf p hp
              · exact ⟨"filelist.txt", hp⟩
              · exact ⟨"final_video.mp4", hp⟩
          · by_cases hr : env.reencodeExit = 0
            · by_cases hfex : env.finalExists = false
              · simp [generate_video, hinv, hps, hnext, hc, hr, finishRun, hfex] at hp
                rcases hp with hp | hp
                · exact hstf p hp
                · exact ⟨"filelist.txt", hp⟩
              · simp [generate_video, hinv, hps, hnext, hc, hr, finishRun, hfex] at hp
                rcases hp with hp | hp | hp
                · exact hstf p hp
                · exact ⟨"filelist.txt", hp⟩
                · exact ⟨"final_video.mp4", hp⟩
            · simp [generate_video, hinv, hps, hnext, hc, hr] at hp
              rcases hp with hp | hp
              · exact hstf p hp
              · exact ⟨"filelist.txt", hp⟩
        · simp only [generate_video, hinv, hps, hret] at hp
          exact hstf p hp
        · simp only [generate_video, hinv, hps, hexc] at hp
          exact hstf p hp
  simp only [leftoverScratch]
  exact filterNot_nil (fun p => underDir td p) _ hall

/-- C6 counterexample: in the CLI variant with one good scene whose final
concat exits nonzero, the run ends (crashed, cleanup skipped) with the
per-scene image, audio, the intermediate clip and the manifest all still
present under `output/`; even on success the image and audio would remain. -/
theorem c6_counterexample_cli_leftovers :
    mainRun envM6
      = { parseError := none,
          crash := some (PyExc.calledProcessError "final concat exited nonzero"),
          files := [outJoin (sceneFile 1 "png"), outJoin (sceneFile 1 "mp3"),
            outJoin (sceneFile 1 "mp4"), outJoin "filelist.txt"] } := rfl

end StorytellerAI

